import Mathlib

/-!
# Verification of the GitHub social-login adapter (`src/sdk/github.js`)

Shallow embedding of the adapter's module-level state and its four
operations (`load`, `checkLogin`, `login`, `getAccessToken`,
`generateUser`).  The browser environment (query string of the current
navigation context, the token-exchange relay, the provider GraphQL
endpoint) is modelled as an oracle record `Env`; each operation returns
its promise outcome together with the list of network requests it
issued, and (for `load`) the updated module state.
-/

set_option autoImplicit false

namespace GithubSdk

/-- JavaScript string truthiness for an optional string field:
`undefined` and the empty string are falsy, every other string truthy. -/
def truthy : Option String → Bool
  | none => false
  | some s => !(s == "")

/-- JavaScript template-literal rendering of a possibly-undefined string:
`undefined` interpolates as the text `"undefined"`. -/
def jsStr : Option String → String
  | none => "undefined"
  | some s => s

/-- JavaScript `a || b` on two possibly-undefined strings, as it is used in
string position (`githubAccessToken || githubAppId`): the first operand if
truthy, otherwise the second, rendered as a string. -/
def jsOr (a b : Option String) : String :=
  if truthy a then jsStr a else jsStr b

/-- A JavaScript numeric value as used for `token.expiresAt`; the source
stores the literal `Infinity` ("never expires"). -/
inductive JsNum where
  | num (n : Int)
  | infinity
  deriving DecidableEq, Repr

/-- Parsed JSON body returned by the token-exchange relay:
`{token: string}` on success or `{error: ...}` on failure. -/
structure RelayBody where
  error : Option String
  token : Option String
  deriving DecidableEq, Repr

/-- The `viewer` object of a GraphQL probe response. -/
structure Viewer where
  id : String
  name : String
  email : String
  avatarUrl : String
  deriving DecidableEq, Repr

/-- The `data` object of a successful GraphQL probe response. -/
structure GqlData where
  viewer : Viewer
  deriving DecidableEq, Repr

/-- Parsed JSON body returned by the provider GraphQL endpoint.  A present
`errors` field is an array (truthy in JavaScript even when empty);
`message` is a string (truthy iff non-empty). -/
structure ProbeBody where
  message : Option String
  errors : Option (List String)
  data : Option GqlData
  deriving DecidableEq, Repr

/-- Cause payload attached to a structured adapter error (`error` field). -/
inductive ErrCause where
  | none
  | relayBody (b : RelayBody)
  | probeBody (b : ProbeBody)
  | transport (e : String)
  deriving DecidableEq, Repr

/-- Structured adapter error object.
Modelled from the spec: `rslError` lives in `../utils`, which is not among
the repository sources provided; the spec describes AdapterError as a value
object `{provider, type, description, cause}` built from the call-site
fields. -/
structure RslError where
  provider : String
  type : String
  description : String
  error : ErrCause
  deriving DecidableEq, Repr

/-- `rslError` constructor from `../utils`.
Modelled from the spec: it packages the given fields into the immutable
error value object. -/
def rslError (provider type description : String) (error : ErrCause) : RslError :=
  ⟨provider, type, description, error⟩

/-- A value a promise can reject with: the structured `rslError` object, or
the bare string used by `getAccessToken`'s missing-code path. -/
inductive Rejection where
  | str (s : String)
  | err (e : RslError)
  deriving DecidableEq, Repr

/-- Settled outcome of a promise. -/
inductive Outcome (α : Type) where
  | resolved (a : α)
  | rejected (e : Rejection)
  deriving DecidableEq, Repr

/-- Outcome of `login()`: it can also navigate away
(`window.open(githubAuth, '_self')`), in which case the promise never
resolves and never rejects. -/
inductive LoginOutcome (α : Type) where
  | resolved (a : α)
  | rejected (e : Rejection)
  | navigated (url : String)
  deriving DecidableEq, Repr

/-- A network request issued through `window.fetch`. -/
inductive Request where
  | relayGet (url : String)
  | graphqlPost (url : String) (authHeader : String) (body : String)
  deriving DecidableEq, Repr

/-- Transport result of a fetch: a transport/parse error, or the parsed
JSON body. -/
def Transport (α : Type) : Type := Except String α

/-- The browser environment: current navigation context's query string and
the two remote services, keyed by the data the adapter sends them. -/
structure Env where
  query : String → Option String
  relay : String → Transport RelayBody
  graphql : String → Transport ProbeBody

/-- `getQueryStringValue` from `../utils`.
Modelled from the spec: reads the named query parameter from the current
navigation context. -/
def getQueryStringValue (env : Env) (name : String) : Option String :=
  env.query name

/-- The adapter's module-level mutable variables. -/
structure SdkState where
  oauth : Bool
  gatekeeperURL : Option String
  githubAccessToken : Option String
  githubAppId : Option String
  githubAuth : Option String
  githubRedirect : Option String
  deriving DecidableEq, Repr

/-- Initial module state: `oauth = false`, everything else undefined. -/
def initState : SdkState :=
  ⟨false, none, none, none, none, none⟩

/-- `GITHUB_API` constant. -/
def GITHUB_API : String := "https://api.github.com/graphql"

/-- The fixed GraphQL probe body sent by `checkLogin`. -/
def graphqlQueryBody : String :=
  "\x7b\"query\":\"query \x7b viewer \x7b id, name, email, avatarUrl \x7d \x7d\"\x7d"

/-- Configuration object passed to `load` (destructured as
`{appId, redirect, gatekeeper}`). -/
structure LoadConfig where
  appId : Option String
  redirect : Option String
  gatekeeper : Option String
  deriving DecidableEq, Repr

/-- Modelled from the spec: the state token is computed by the external
`uuid/v5` dependency (`uuid(redirect, uuid.URL)`), which is not part of
this repository's sources.  The spec describes it as a namespace-based
deterministic hash of the redirect URI into a 128-bit UUID value; it is
modelled here as a deterministic fold of the URI's bytes into
`Fin (2 ^ 128)`.  The development relies only on it being a function and on
the finiteness of its codomain. -/
def uuidv5core (s : String) : Fin (2 ^ 128) :=
  ⟨(s.toUTF8.toList.foldl (fun h b => (h * 1099511628211 + b.toNat) % 2 ^ 128) 5381) % 2 ^ 128,
    Nat.mod_lt _ (by norm_num)⟩

/-- Modelled from the spec: textual rendering of the state token, as
interpolated into the authorization URL. -/
def uuidv5 (s : String) : String :=
  toString (uuidv5core s).val

/-- `getAccessToken`: reads the `code` query parameter; if falsy, rejects
with the bare string `'Authorization code not found'`; otherwise fetches
`{gatekeeperURL}/authenticate/{code}` and either rejects with a structured
`access_token` error (transport failure, or body with a truthy `error`
field or falsy `token` field) or resolves with the body's `token`. -/
def getAccessToken (env : Env) (st : SdkState) : Outcome String × List Request :=
  let authorizationCode := getQueryStringValue env "code"
  if !truthy authorizationCode then
    (.rejected (.str "Authorization code not found"), [])
  else
    let url := jsStr st.gatekeeperURL ++ "/authenticate/" ++ jsStr authorizationCode
    match env.relay url with
    | .error e =>
        (.rejected (.err (rslError "github" "access_token"
          "Failed to fetch user data due to window.fetch() error" (.transport e))),
         [.relayGet url])
    | .ok json =>
        if truthy json.error || !truthy json.token then
          (.rejected (.err (rslError "github" "access_token"
            "Got error from fetch access token" (.relayBody json))),
           [.relayGet url])
        else
          (.resolved (jsStr json.token), [.relayGet url])

/-- `load({appId, redirect, gatekeeper})`: rejects with a `load` error when
`appId` is falsy (no state mutation); stores `appId`; if `gatekeeper` is
truthy, switches to OAuth mode, computes the escaped callback redirect and
the authorization URL (with the deterministic state token), and — when the
navigation context shows `rslCallback=github` — runs `getAccessToken`,
recording the token into `githubAccessToken` on success.  Returns the
promise outcome (`some token` when resolving with a token, `none` when
resolving with no value), the updated module state, and the requests
issued. -/
def load (env : Env) (st : SdkState) (cfg : LoadConfig) :
    Outcome (Option String) × SdkState × List Request :=
  if !truthy cfg.appId then
    (.rejected (.err (rslError "github" "load" "Cannot load SDK without appId" .none)),
     st, [])
  else
    let st1 : SdkState := { st with githubAppId := cfg.appId }
    if truthy cfg.gatekeeper then
      let githubRedirect := jsStr cfg.redirect ++ "%3FrslCallback%3Dgithub"
      let githubAuth :=
        "http://github.com/login/oauth/authorize?client_id=" ++ jsStr cfg.appId ++
        "&redirect_uri=" ++ githubRedirect ++ "&scope=user&state=" ++
        uuidv5 (jsStr cfg.redirect)
      let st2 : SdkState :=
        { st1 with
          gatekeeperURL := cfg.gatekeeper
          oauth := true
          githubRedirect := some githubRedirect
          githubAuth := some githubAuth }
      if getQueryStringValue env "rslCallback" == some "github" then
        match getAccessToken env st2 with
        | (.resolved t, reqs) =>
            (.resolved (some t), { st2 with githubAccessToken := some t }, reqs)
        | (.rejected e, reqs) => (.rejected e, st2, reqs)
      else
        (.resolved none, st2, [])
    else
      (.resolved none, st1, [])

/-- The `autoLogin = false` body of `checkLogin`: in OAuth mode with no
recorded access token, rejects immediately with the `access_token` error;
otherwise issues the authenticated GraphQL probe with
`Authorization: Bearer {accessToken || appId}` and rejects with a
`check_login` error on a body carrying a truthy `message` or `errors`
field (cause: the body) or on transport failure (cause dropped), else
resolves with the parsed body unmodified. -/
def checkLoginCore (env : Env) (st : SdkState) : Outcome ProbeBody × List Request :=
  if !truthy st.githubAccessToken && st.oauth then
    (.rejected (.err (rslError "github" "access_token" "No access token available" .none)),
     [])
  else
    let authHeader := "Bearer " ++ jsOr st.githubAccessToken st.githubAppId
    match env.graphql authHeader with
    | .error _ =>
        (.rejected (.err (rslError "github" "check_login"
          "Failed to fetch user data due to window.fetch() error" .none)),
         [.graphqlPost GITHUB_API authHeader graphqlQueryBody])
    | .ok json =>
        if truthy json.message || json.errors.isSome then
          (.rejected (.err (rslError "github" "check_login"
            "Failed to fetch user data" (.probeBody json))),
           [.graphqlPost GITHUB_API authHeader graphqlQueryBody])
        else
          (.resolved json, [.graphqlPost GITHUB_API authHeader graphqlQueryBody])

/-- `login()`: runs the probe; resolves with its value on success; on
failure re-throws the exact error in direct-token mode (`oauth = false`),
and in OAuth mode navigates to the precomputed authorization URL (the
promise never settles on that path). -/
def login (env : Env) (st : SdkState) : LoginOutcome ProbeBody × List Request :=
  match checkLoginCore env st with
  | (.resolved response, reqs) => (.resolved response, reqs)
  | (.rejected error, reqs) =>
      if !st.oauth then
        (.rejected error, reqs)
      else
        (.navigated (jsStr st.githubAuth), reqs)

/-- `checkLogin(autoLogin = false)`: delegates to `login()` when
`autoLogin` is true, otherwise runs the probe body. -/
def checkLogin (env : Env) (st : SdkState) (autoLogin : Bool) :
    LoginOutcome ProbeBody × List Request :=
  if autoLogin then
    login env st
  else
    match checkLoginCore env st with
    | (.resolved response, reqs) => (.resolved response, reqs)
    | (.rejected e, reqs) => (.rejected e, reqs)

/-- Canonical user profile produced by `generateUser`. -/
structure Profile where
  id : String
  name : String
  firstName : String
  lastName : String
  email : String
  profilePicURL : String
  deriving DecidableEq, Repr

/-- Canonical token record produced by `generateUser`. -/
structure TokenRec where
  accessToken : String
  expiresAt : JsNum
  deriving DecidableEq, Repr

/-- Canonical user record. -/
structure CanonicalUser where
  profile : Profile
  token : TokenRec
  deriving DecidableEq, Repr

/-- Well-formed input of `generateUser` (`{data: {viewer}}`, as
destructured by the source). -/
structure ViewerResponse where
  data : GqlData
  deriving DecidableEq, Repr

/-- `generateUser({data: {viewer}})`: maps the viewer fields into the
canonical user, duplicating `name` into `firstName`/`lastName`, reading
`githubAccessToken || githubAppId` from module state, with
`expiresAt = Infinity`. -/
def generateUser (st : SdkState) (input : ViewerResponse) : CanonicalUser :=
  { profile :=
      { id := input.data.viewer.id
        name := input.data.viewer.name
        firstName := input.data.viewer.name
        lastName := input.data.viewer.name
        email := input.data.viewer.email
        profilePicURL := input.data.viewer.avatarUrl }
    token :=
      { accessToken := jsOr st.githubAccessToken st.githubAppId
        expiresAt := JsNum.infinity } }

/-! ## Concrete test fixtures (environments, states, configurations) -/

/-- Navigation context showing a github callback with `code=ABC123`; relay
answers `{token: "t1"}` at the expected URL; GraphQL probe succeeds. -/
def envCallback : Env :=
  ⟨fun k => if k = "rslCallback" then some "github"
            else if k = "code" then some "ABC123" else none,
   fun u => if u = "https://relay/authenticate/ABC123" then Except.ok ⟨none, some "t1"⟩
            else Except.error "wrong url",
   fun _ => Except.ok ⟨none, none, some ⟨⟨"1", "Ada", "a@x.com", "u"⟩⟩⟩⟩

/-- Navigation context showing a github callback with `code=ABC123`; relay
answers `{error: "denied"}`. -/
def envDenied : Env :=
  ⟨fun k => if k = "rslCallback" then some "github"
            else if k = "code" then some "ABC123" else none,
   fun u => if u = "https://relay/authenticate/ABC123" then Except.ok ⟨some "denied", none⟩
            else Except.error "wrong url",
   fun _ => Except.error "transport"⟩

/-- Navigation context showing a github callback with no `code` parameter. -/
def envNoCode : Env :=
  ⟨fun k => if k = "rslCallback" then some "github" else none,
   fun _ => Except.error "unreachable",
   fun _ => Except.error "unreachable"⟩

/-- Environment whose GraphQL endpoint fails at transport level. -/
def envGqlDown : Env :=
  ⟨fun _ => none, fun _ => Except.error "unreachable", fun _ => Except.error "down"⟩

/-- Environment whose GraphQL endpoint returns a body with an `errors`
field. -/
def envGqlErrors : Env :=
  ⟨fun _ => none, fun _ => Except.error "unreachable",
   fun _ => Except.ok ⟨none, some [], none⟩⟩

/-- A redirect-OAuth configuration. -/
def cfgOauth : LoadConfig :=
  ⟨some "app", some "http://app/cb", some "https://relay"⟩

/-- A direct-token state: `appId` stored, no OAuth. -/
def stDirect : SdkState :=
  ⟨false, none, none, some "app", none, none⟩

/-- An OAuth-mode state with no recorded access token. -/
def stOauthNoToken : SdkState :=
  ⟨true, some "https://relay", none, some "app", some "http://auth", some "cb"⟩

end GithubSdk

namespace GithubSdk

/-! ## Helper lemmas -/

/-- The authorization URL `load` computes from a configuration. -/
def authUrlOf (cfg : LoadConfig) : String :=
  "http://github.com/login/oauth/authorize?client_id=" ++ jsStr cfg.appId ++
  "&redirect_uri=" ++ (jsStr cfg.redirect ++ "%3FrslCallback%3Dgithub") ++
  "&scope=user&state=" ++ uuidv5 (jsStr cfg.redirect)

theorem load_githubAuth_eq (env : Env) (st : SdkState) (cfg : LoadConfig)
    (hApp : truthy cfg.appId = true) (hGk : truthy cfg.gatekeeper = true) :
    (load env st cfg).2.1.githubAuth = some (authUrlOf cfg) := by
  simp only [load, hApp, hGk, Bool.not_true, Bool.false_eq_true, if_false, if_true,
    authUrlOf]
  split
  · split
    · rfl
    · rfl
  · rfl

instance infiniteString : Infinite String :=
  Infinite.of_injective (fun n : Nat => String.mk (List.replicate n 'a'))
    (fun a b h => by
      have hd : List.replicate a 'a' = List.replicate b 'a' := congrArg String.data h
      simpa using congrArg List.length hd)

/-- `checkLogin(false)` settles exactly as the probe body does, so they
issue the same requests. -/
theorem checkLogin_false_trace (env : Env) (st : SdkState) :
    (checkLogin env st false).2 = (checkLoginCore env st).2 := by
  simp only [checkLogin, Bool.false_eq_true, if_false]
  rcases checkLoginCore env st with ⟨o, reqs⟩
  cases o <;> rfl

/-- Once the no-token guard is passed, the probe issues exactly one GraphQL
POST with the `accessToken || appId` bearer header, whatever the endpoint
answers. -/
theorem checkLoginCore_trace (env : Env) (st : SdkState)
    (hGuard : (!truthy st.githubAccessToken && st.oauth) = false) :
    (checkLoginCore env st).2 =
      [.graphqlPost GITHUB_API ("Bearer " ++ jsOr st.githubAccessToken st.githubAppId)
        graphqlQueryBody] := by
  simp only [checkLoginCore, hGuard, Bool.false_eq_true, if_false]
  split
  · rfl
  · split <;> rfl

/-! ## Claim theorems -/

/-- C1: in a navigation context with `rslCallback=github` and
`code=ABC123`, `load()` in redirect-OAuth mode issues exactly one relay
GET to `{gatekeeper}/authenticate/ABC123`; when the relay answers
`{token: "t1"}`, `load()` resolves with `"t1"`, records it as the session
access token, and a subsequent `checkLogin(false)` sends exactly one
GraphQL probe with header `Authorization: Bearer t1` (not the appId
fallback). -/
theorem load_callback_success (env env2 : Env) (st : SdkState) (cfg : LoadConfig)
    (hApp : truthy cfg.appId = true) (hGk : truthy cfg.gatekeeper = true)
    (hCb : env.query "rslCallback" = some "github")
    (hCode : env.query "code" = some "ABC123")
    (hRelay : env.relay (jsStr cfg.gatekeeper ++ "/authenticate/" ++ "ABC123") =
      Except.ok ⟨none, some "t1"⟩) :
    (load env st cfg).2.2 =
      [.relayGet (jsStr cfg.gatekeeper ++ "/authenticate/" ++ "ABC123")] ∧
    (load env st cfg).1 = .resolved (some "t1") ∧
    (load env st cfg).2.1.githubAccessToken = some "t1" ∧
    (checkLogin env2 (load env st cfg).2.1 false).2 =
      [.graphqlPost GITHUB_API ("Bearer " ++ "t1") graphqlQueryBody] := by
  have h1 : truthy (some "ABC123") = true := rfl
  have h2 : jsStr (some "ABC123") = "ABC123" := rfl
  have h3 : truthy (none : Option String) = false := rfl
  have h4 : truthy (some "t1") = true := rfl
  have h5 : jsStr (some "t1") = "t1" := rfl
  have hTok : (load env st cfg).2.1.githubAccessToken = some "t1" := by
    simp [load, hApp, hGk, getQueryStringValue, hCb, getAccessToken, hCode, hRelay,
      h1, h2, h3, h4, h5]
  refine ⟨?_, ?_, hTok, ?_⟩
  · simp [load, hApp, hGk, getQueryStringValue, hCb, getAccessToken, hCode, hRelay,
      h1, h2, h3, h4, h5]
  · simp [load, hApp, hGk, getQueryStringValue, hCb, getAccessToken, hCode, hRelay,
      h1, h2, h3, h4, h5]
  · rw [checkLogin_false_trace, checkLoginCore_trace _ _ (by rw [hTok]; simp [h4])]
    rw [hTok]
    simp [jsOr, h4, h5]

/-- C1 witness: the concrete callback environment and OAuth
configuration. -/
theorem load_callback_success_witness :
    (load envCallback initState cfgOauth).2.2 =
      [.relayGet (jsStr cfgOauth.gatekeeper ++ "/authenticate/" ++ "ABC123")] ∧
    (load envCallback initState cfgOauth).1 = .resolved (some "t1") ∧
    (load envCallback initState cfgOauth).2.1.githubAccessToken = some "t1" ∧
    (checkLogin envCallback (load envCallback initState cfgOauth).2.1 false).2 =
      [.graphqlPost GITHUB_API ("Bearer " ++ "t1") graphqlQueryBody] :=
  load_callback_success envCallback envCallback initState cfgOauth
    (by decide) (by decide) (by decide) (by decide) (by rfl)

/-- C4: when callback handling reaches the relay and the relay's JSON body
carries a truthy `error` field or a falsy `token` field, `load()` rejects
with an AdapterError of type `access_token` carrying the body as cause,
and the recorded access token is unchanged (never set on this path). -/
theorem load_relay_error_rejects_no_token (env : Env) (st : SdkState)
    (cfg : LoadConfig) (body : RelayBody) (code : String)
    (hApp : truthy cfg.appId = true) (hGk : truthy cfg.gatekeeper = true)
    (hCb : env.query "rslCallback" = some "github")
    (hCode : env.query "code" = some code) (hCodeT : truthy (some code) = true)
    (hRelay : env.relay (jsStr cfg.gatekeeper ++ "/authenticate/" ++ code) =
      Except.ok body)
    (hBad : (truthy body.error || !truthy body.token) = true) :
    (load env st cfg).1 =
      .rejected (.err (rslError "github" "access_token"
        "Got error from fetch access token" (.relayBody body))) ∧
    (load env st cfg).2.1.githubAccessToken = st.githubAccessToken := by
  have h2 : jsStr (some code) = code := rfl
  constructor <;>
    simp [load, hApp, hGk, getQueryStringValue, hCb, getAccessToken, hCode, hCodeT,
      h2, hRelay, hBad]

/-- C4 witness: relay answers `{error: "denied"}` on the concrete callback
context; the prior state records no token and none is recorded after. -/
theorem load_relay_error_rejects_no_token_witness :
    (load envDenied initState cfgOauth).1 =
      .rejected (.err (rslError "github" "access_token"
        "Got error from fetch access token" (.relayBody ⟨some "denied", none⟩))) ∧
    (load envDenied initState cfgOauth).2.1.githubAccessToken =
      initState.githubAccessToken :=
  load_relay_error_rejects_no_token envDenied initState cfgOauth
    ⟨some "denied", none⟩ "ABC123" (by decide) (by decide) (by decide) (by decide)
    (by decide) (by rfl) (by decide)

/-- C5: whenever the probe's fetch transport succeeds with parsed body
`body`, `checkLogin(false)` rejects with an AdapterError of type
`check_login` carrying `body` as cause iff `body` has a truthy `message`
or a present `errors` field; otherwise it resolves with the parsed body
unmodified. -/
theorem checkLogin_probe_body_handling (env : Env) (st : SdkState) (body : ProbeBody)
    (hGuard : (!truthy st.githubAccessToken && st.oauth) = false)
    (hResp : env.graphql ("Bearer " ++ jsOr st.githubAccessToken st.githubAppId) =
      Except.ok body) :
    ((truthy body.message || body.errors.isSome) = true →
      checkLogin env st false =
        (.rejected (.err (rslError "github" "check_login" "Failed to fetch user data"
          (.probeBody body))),
         [.graphqlPost GITHUB_API ("Bearer " ++ jsOr st.githubAccessToken st.githubAppId)
           graphqlQueryBody])) ∧
    ((truthy body.message || body.errors.isSome) = false →
      checkLogin env st false =
        (.resolved body,
         [.graphqlPost GITHUB_API ("Bearer " ++ jsOr st.githubAccessToken st.githubAppId)
           graphqlQueryBody])) := by
  constructor <;> intro h <;>
    simp [checkLogin, checkLoginCore, hGuard, hResp, h]

/-- C5 witness: a direct-token state probing an endpoint that answers with
an (empty, hence still truthy) `errors` array. -/
theorem checkLogin_probe_body_handling_witness :
    (truthy (ProbeBody.mk none (some []) none).message ||
      (ProbeBody.mk none (some []) none).errors.isSome) = true ∧
    checkLogin envGqlErrors stDirect false =
      (.rejected (.err (rslError "github" "check_login" "Failed to fetch user data"
        (.probeBody ⟨none, some [], none⟩))),
       [.graphqlPost GITHUB_API ("Bearer " ++ jsOr none (some "app"))
         graphqlQueryBody]) :=
  ⟨by decide,
   (checkLogin_probe_body_handling envGqlErrors stDirect ⟨none, some [], none⟩
     (by decide) (by rfl)).1 (by decide)⟩

/-- C6: `login()` resolves with the probe's value when the probe resolves;
when the probe rejects it re-throws the probe's exact error in direct-token
mode (no navigation), and in OAuth mode it instead navigates to the
precomputed authorization URL — the promise settles neither way there,
modelled by the `navigated` outcome. -/
theorem login_probe_outcome_handling (env : Env) (st : SdkState) :
    (∀ v reqs, checkLoginCore env st = (.resolved v, reqs) →
      login env st = (.resolved v, reqs)) ∧
    (∀ e reqs, checkLoginCore env st = (.rejected e, reqs) →
      (st.oauth = false → login env st = (.rejected e, reqs)) ∧
      (st.oauth = true → login env st = (.navigated (jsStr st.githubAuth), reqs))) := by
  constructor
  · intro v reqs h
    simp [login, h]
  · intro e reqs h
    constructor <;> intro ho <;> simp [login, h, ho]

/-- C6 witness: direct-token state whose probe fails at transport level;
`login()` rejects with that exact error and does not navigate. -/
theorem login_probe_outcome_handling_witness :
    login envGqlDown stDirect =
      (.rejected (.err (rslError "github" "check_login"
        "Failed to fetch user data due to window.fetch() error" .none)),
       [.graphqlPost GITHUB_API ("Bearer " ++ jsOr none (some "app"))
         graphqlQueryBody]) :=
  ((login_probe_outcome_handling envGqlDown stDirect).2 _ _ (by decide)).1 (by decide)

/-- C7: `generateUser` is a pure mapping (a total Lean function of the
module state and the well-formed input, with no request trace); on the
viewer `{id:"1", name:"Ada", email:"a@x.com", avatarUrl:"u"}` it yields the
canonical user whose `firstName` and `lastName` both copy `name`, whose
`accessToken` is the stored access token when one is recorded and the
stored appId otherwise, and whose `expiresAt` is `Infinity` (never
expires). -/
theorem generateUser_pure_mapping (st : SdkState) :
    generateUser st ⟨⟨⟨"1", "Ada", "a@x.com", "u"⟩⟩⟩ =
      ⟨⟨"1", "Ada", "Ada", "Ada", "a@x.com", "u"⟩,
       ⟨if truthy st.githubAccessToken then jsStr st.githubAccessToken
         else jsStr st.githubAppId, JsNum.infinity⟩⟩ :=
  rfl

/-- C8 counterexample: the state-token map cannot send every pair of
distinct redirect URIs to distinct tokens — its codomain is the finite
128-bit UUID space while redirect URIs are unbounded, so two distinct
redirect URIs share a token. -/
theorem stateToken_collision_exists :
    ∃ r1 r2 : String, r1 ≠ r2 ∧ uuidv5 r1 = uuidv5 r2 := by
  obtain ⟨x, y, hxy, heq⟩ := Finite.exists_ne_map_eq_of_infinite uuidv5core
  exact ⟨x, y, hxy, by simp [uuidv5, heq]⟩

/-- C8 amended: the state token is a deterministic function of the redirect
URI alone — equal redirect URIs give equal tokens, and the full
authorization URL `load` computes is determined by the configuration,
independent of the environment and of the prior session state. -/
theorem authUrl_state_token_deterministic (env1 env2 : Env) (st1 st2 : SdkState)
    (cfg1 cfg2 : LoadConfig)
    (hApp1 : truthy cfg1.appId = true) (hGk1 : truthy cfg1.gatekeeper = true)
    (hRed : cfg1.redirect = cfg2.redirect) :
    uuidv5 (jsStr cfg1.redirect) = uuidv5 (jsStr cfg2.redirect) ∧
    (cfg1 = cfg2 →
      (load env1 st1 cfg1).2.1.githubAuth = (load env2 st2 cfg2).2.1.githubAuth) := by
  refine ⟨by rw [hRed], ?_⟩
  intro hc
  subst hc
  rw [load_githubAuth_eq env1 st1 cfg1 hApp1 hGk1,
    load_githubAuth_eq env2 st2 cfg1 hApp1 hGk1]

/-- C8 amended witness: the same OAuth configuration loaded in two
different environments and from two different prior states yields the same
authorization URL (hence the same state token). -/
theorem authUrl_state_token_deterministic_witness :
    uuidv5 (jsStr cfgOauth.redirect) = uuidv5 (jsStr cfgOauth.redirect) ∧
    (cfgOauth = cfgOauth →
      (load envCallback initState cfgOauth).2.1.githubAuth =
        (load envNoCode stDirect cfgOauth).2.1.githubAuth) :=
  authUrl_state_token_deterministic envCallback envNoCode initState stDirect
    cfgOauth cfgOauth (by decide) (by decide) rfl

/-- C2: for every configuration whose `appId` is absent or empty, `load()`
rejects with an AdapterError of type `load` and performs no mutation: the
returned state is exactly the prior state, and no request is issued. -/
theorem load_missing_appId_rejects_no_mutation (env : Env) (st : SdkState)
    (cfg : LoadConfig) (h : truthy cfg.appId = false) :
    load env st cfg =
      (.rejected (.err (rslError "github" "load" "Cannot load SDK without appId"
        .none)), st, []) := by
  simp [load, h]

/-- C2 witness: a configuration with no `appId` at all. -/
theorem load_missing_appId_rejects_no_mutation_witness :
    load envCallback initState ⟨none, some "http://app/cb", some "https://relay"⟩ =
      (.rejected (.err (rslError "github" "load" "Cannot load SDK without appId"
        .none)), initState, []) :=
  load_missing_appId_rejects_no_mutation envCallback initState
    ⟨none, some "http://app/cb", some "https://relay"⟩ (by decide)

/-- C3: for every session state in OAuth mode with no recorded access
token, `checkLogin(false)` rejects with an AdapterError of type
`access_token` and description `"No access token available"`, and issues
zero network requests. -/
theorem checkLogin_no_token_oauth_rejects (env : Env) (st : SdkState)
    (hTok : truthy st.githubAccessToken = false) (hOauth : st.oauth = true) :
    checkLogin env st false =
      (.rejected (.err (rslError "github" "access_token" "No access token available"
        .none)), []) := by
  simp [checkLogin, checkLoginCore, hTok, hOauth]

/-- C3 witness: OAuth-mode state with no token; the environment's GraphQL
endpoint is a dead end, so the empty trace also shows it was never
contacted. -/
theorem checkLogin_no_token_oauth_rejects_witness :
    checkLogin envGqlDown stOauthNoToken false =
      (.rejected (.err (rslError "github" "access_token" "No access token available"
        .none)), []) :=
  checkLogin_no_token_oauth_rejects envGqlDown stOauthNoToken (by decide) (by decide)

/-- C9: when the navigation context lacks a (truthy) `code` query
parameter, `getAccessToken` rejects with the BARE STRING
`"Authorization code not found"` — not a structured AdapterError — and
`load()` in callback handling propagates that same bare-string rejection.
This documents the divergence from the spec sentence claiming a structured
`AdapterError{type: access_token}`. -/
theorem getAccessToken_missing_code_bare_string (env : Env) (st : SdkState)
    (h : truthy (env.query "code") = false) :
    getAccessToken env st = (.rejected (.str "Authorization code not found"), []) ∧
    ∀ cfg : LoadConfig, truthy cfg.appId = true → truthy cfg.gatekeeper = true →
      env.query "rslCallback" = some "github" →
      (load env st cfg).1 = .rejected (.str "Authorization code not found") := by
  constructor
  · simp [getAccessToken, getQueryStringValue, h]
  · intro cfg hApp hGk hCb
    simp [load, hApp, hGk, getQueryStringValue, hCb, getAccessToken, h]

/-- C9 witness: callback context with no `code` parameter. -/
theorem getAccessToken_missing_code_bare_string_witness :
    getAccessToken envNoCode initState =
        (.rejected (.str "Authorization code not found"), []) ∧
      (load envNoCode initState cfgOauth).1 =
        .rejected (.str "Authorization code not found") :=
  ⟨(getAccessToken_missing_code_bare_string envNoCode initState (by decide)).1,
   (getAccessToken_missing_code_bare_string envNoCode initState (by decide)).2
     cfgOauth (by decide) (by decide) (by decide)⟩

/-- C10: when the `code` query parameter is absent, `getAccessToken`
rejects before contacting the relay: its request trace is empty. -/
theorem getAccessToken_missing_code_no_requests (env : Env) (st : SdkState)
    (h : truthy (env.query "code") = false) :
    (getAccessToken env st).2 = [] := by
  simp [getAccessToken, getQueryStringValue, h]

/-- C10 witness: callback context with no `code` parameter; the relay
oracle would answer any URL, yet no request reaches it. -/
theorem getAccessToken_missing_code_no_requests_witness :
    (getAccessToken envNoCode stOauthNoToken).2 = [] :=
  getAccessToken_missing_code_no_requests envNoCode stOauthNoToken (by decide)

end GithubSdk
